import Mathlib

/-!
Verification development for the level-data ingestion layer of the
high_impact engine (files `src/engine.c` and `src/tiled_loader.h`; the
tiled loader duplicates the engine's loader, so one embedding covers
both).  C functions are shallowly embedded as executable Lean functions:
machine integers become `Nat`/`Int` with explicit wraparound where it can
occur, C strings become `List Char`, JSON documents become records of
`Option`-valued fields (a `none` field models an absent key), and each
fallible function returns a `CResult`, whose `fatal` constructor models
`error_if`/`die` (process termination with a message) and whose `crash`
constructor models undefined behaviour (out-of-bounds access, null
dereference, reads of uninitialized memory).
-/

/-- Outcome of running a piece of the C loader: normal value, process
termination via `error_if`/`die` with the given message, or undefined
behaviour. -/
inductive CResult (α : Type) where
  | ok (a : α) : CResult α
  | fatal (msg : String) : CResult α
  | crash : CResult α
deriving DecidableEq

/-- The characters of a string literal; C strings are embedded as `List Char`. -/
def chars (s : String) : List Char := s.data

/-- Truncation of a real JSON number toward zero, the C cast `(int)x` of a
nonnegative-or-negative double (`Int.div` truncates toward zero). -/
def c_int_of_rat (q : ℚ) : Int := q.num / (q.den : Int)

/-- The engine's `json_number` collaborator applied to an optional numeric
field.  Modelled from the spec: the generic JSON parser is an external
collaborator (spec section 6); its numeric accessor yields the value of a
present numeric field and `0` for an absent one (the loader relies on this
for optional fields such as an object's `height`). -/
def json_number (v : Option ℚ) : ℚ := v.getD 0

/-- The engine's `json_bool` collaborator applied to an optional boolean
field.  Modelled from the spec: external JSON collaborator (spec section
6); absent values read as `false`. -/
def json_bool (v : Option Bool) : Bool := v.getD false

/-! ## Path Resolver (`parent_dir`, `norm_path`; engine.c lines 79-140) -/

/-- Index of the last `/` in a string, if any (the `strrchr(pdir, '/')`
call in `parent_dir`).  The C copy passed to `strrchr` lacks an explicit
NUL terminator (`bump_alloc(path_len)` + `strncpy` of `path_len` bytes);
the embedding models the intended semantics on the copied characters. -/
def last_slash_idx (s : List Char) : Option Nat :=
  ((s.enum.filter (fun p => p.2 == '/')).map (fun p => p.1)).getLast?

/-- `parent_dir` (engine.c lines 79-90): the substring before the last
`/`, or `none` when the path has no separator. -/
def parent_dir (s : List Char) : Option (List Char) :=
  match last_slash_idx s with
  | some i => some (s.take i)
  | none => none

/-- `strtok(path, "/")` tokenization used by `norm_path`: split on `/`,
skipping empty tokens (consecutive or leading separators). -/
def split_slash_aux : List Char → List Char → List (List Char)
  | [], acc => if acc = [] then [] else [acc.reverse]
  | c :: rest, acc =>
    if c = '/' then
      if acc = [] then split_slash_aux rest []
      else acc.reverse :: split_slash_aux rest []
    else split_slash_aux rest (c :: acc)

/-- All `/`-separated components of a path, in order. -/
def split_slash (s : List Char) : List (List Char) := split_slash_aux s []

/-- The inner loop of the `..` resolution in `norm_path`
(`for (j = i - 1; j > 0; j--)`, engine.c lines 120-125): starting at
`j = i - 1` and stopping at `j = 0` (exclusive, as coded), null the first
surviving component found.  Component index 0 is never reached. -/
def null_prev_part : List (Option (List Char)) → Nat → List (Option (List Char))
  | parts, 0 => parts
  | parts, j + 1 =>
    if (parts.getD (j + 1) none).isSome then parts.set (j + 1) none
    else null_prev_part parts j

/-- The `..`-resolution loop of `norm_path` (engine.c lines 113-127): for
every index in order, a `..` component is nulled and the nearest preceding
surviving component (searched down to index 1, as coded) is nulled; a `..`
at index 0 is `die("Can't resolve parent/upper dir")` (message embedded
without the apostrophe). -/
def resolve_dots (parts0 : List (Option (List Char))) : CResult (List (Option (List Char))) :=
  (List.range parts0.length).foldl
    (fun acc i =>
      match acc with
      | CResult.ok parts =>
        if parts.getD i none = some (chars "..") then
          if i = 0 then CResult.fatal "Cant resolve parent/upper dir"
          else CResult.ok (null_prev_part (parts.set i none) (i - 1))
        else CResult.ok parts
      | e => e)
    (CResult.ok parts0)

/-- Reassembly loop of `norm_path` (engine.c lines 131-138): surviving
components joined by `/`; the separator is appended after a surviving
component whenever it is not in the last slot. -/
def reassemble (parts : List (Option (List Char))) : List Char :=
  (parts.enum.map (fun p =>
    match p.2 with
    | some s => if p.1 < parts.length - 1 then s ++ [ '/' ] else s
    | none => [])).flatten

/-- `norm_path` (engine.c lines 93-140): tokenize on `/` (the token-count
guard `parts_len >= MAX_PARTS` fires while collecting the 33rd token, so
more than 32 components is `die("Too many parts")`), resolve `..`
components, reassemble.  The `i < strlen(path)` bound on the collection
loop never cuts tokenization short (a path of length `n` has at most
`(n+1)/2 <= n` tokens). -/
def norm_path (path : List Char) : CResult (List Char) :=
  let parts0 := split_slash path
  if parts0.length > 32 then CResult.fatal "Too many parts"
  else
    match resolve_dots (parts0.map some) with
    | CResult.ok parts => CResult.ok (reassemble parts)
    | CResult.fatal e => CResult.fatal e
    | CResult.crash => CResult.crash

/-! ## Tileset Registry data model (engine.c lines 62-77) -/

/-- `tiled_tileset_t` (engine.c lines 62-70): one tileset descriptor.
`first_gid` and `tile_count` are `uint16_t` values, embedded as `Nat`
(the match test `first_gid + tile_count` is computed after integer
promotion in C, so it does not wrap).  `image_path` is the tileset
document's `image` string (`NULL`, i.e. `none`, when the key is absent). -/
structure tiled_tileset_t where
  first_gid : Nat
  tile_count : Nat
  tile_width : Nat
  tile_height : Nat
  image_path : Option (List Char)
  tsj_path : List Char
deriving DecidableEq, Inhabited

/-- `tiled_map_info_t` (engine.c lines 72-77): the per-load registry.
The fixed `MAX_TILESETS = 8` array plus `tilesets_len` is embedded as the
list of stored descriptors (the capacity is enforced, or not, by the code
that stores into it; see `load_tilesets_step`). -/
structure tiled_map_info_t where
  tile_size : Nat
  tilesets : List tiled_tileset_t
deriving DecidableEq, Inhabited

/-! ## Tile Layer Loader (`map_from_tiled_layer_json`, engine.c lines 143-263) -/

/-- One entry of a layer's `properties` array: its `name`, `type` and
`value` keys.  Only boolean-valued properties are ever read by the loader
(`json_bool`), so `value` is embedded as an optional boolean. -/
structure json_prop_t where
  name : Option String
  ptype : Option String
  value : Option Bool
deriving DecidableEq, Inhabited

/-- A tile layer definition: the JSON keys read by
`map_from_tiled_layer_json`.  `none` models an absent key. -/
structure layer_def_t where
  name : Option String
  ltype : Option String
  width : Option ℚ
  height : Option ℚ
  parallaxx : Option ℚ
  parallaxy : Option ℚ
  properties : Option (List json_prop_t)
  data : Option (List ℚ)
deriving DecidableEq, Inhabited

/-- The engine-side `map_t` fields assigned by the loader.  `size_x`,
`size_y` are C `int`s assigned from JSON doubles.  `repeat_flag` embeds
`map->repeat`, which the C code leaves uninitialized unless a `repeat`
property is present (`none` = uninitialized).  `name` is `[]` when no
name is given (the C buffer is uninitialized in that case).  `tileset` is
the image path handed to the `image(...)` collaborator, `none` when the
empty-layer early return leaves it unresolved. -/
structure map_t where
  size_x : Int
  size_y : Int
  tile_size : Nat
  distance : ℚ
  foreground : Bool
  repeat_flag : Option Bool
  name : List Char
  data : List Nat
  tileset : Option (List Char)
deriving DecidableEq, Inhabited

/-- Parallax handling (engine.c lines 159-169): with `parallaxx` present
its value must equal `json_number` of `parallaxy` (fatal otherwise), the
common value becomes `map->distance`, and a zero distance is fatal; with
`parallaxx` absent the distance is 1.  C compares `float` values; the
embedding compares the modelled rationals exactly. -/
def parallax_distance (px : Option ℚ) (py : Option ℚ) : CResult ℚ :=
  match px with
  | some x =>
    let y := json_number py
    if x ≠ y then CResult.fatal "parallax.x and parallax.y has to be the same(=map.distance)"
    else if x = 0 then CResult.fatal "invalid distance for map"
    else CResult.ok x
  | none => CResult.ok 1

/-- One iteration of the custom-properties loop (engine.c lines 174-190)
over the running `(foreground, repeat)` state: a property named
`foreground` or `repeat` must have `type` string `"bool"` (fatal
otherwise) and sets the corresponding flag via `json_bool`; other names
are ignored. -/
def read_props_step (st : Bool × Option Bool) (p : json_prop_t) : CResult (Bool × Option Bool) :=
  if p.name = some "foreground" then
    if p.ptype ≠ some "bool" then CResult.fatal "foreground property must be bool"
    else CResult.ok (json_bool p.value, st.2)
  else if p.name = some "repeat" then
    if p.ptype ≠ some "bool" then CResult.fatal "repeat property must be bool"
    else CResult.ok (st.1, some (json_bool p.value))
  else CResult.ok st

/-- The custom-properties loop (engine.c lines 172-190): `map->foreground`
starts `false`; `map->repeat` starts uninitialized; an absent `properties`
key skips the loop. -/
def read_props : Option (List json_prop_t) → CResult (Bool × Option Bool)
  | none => CResult.ok (false, none)
  | some ps =>
    ps.foldl
      (fun acc p =>
        match acc with
        | CResult.ok st => read_props_step st p
        | e => e)
      (CResult.ok (false, none))

/-- Map name handling (engine.c lines 192-196): a present string name of
more than 15 characters is fatal, otherwise it is copied; with no name the
`map->name` buffer stays uninitialized (embedded as `[]`).  `name->len` is
the JSON string's byte length; the embedding uses the character count
(identical for the ASCII names the loader deals in). -/
def read_map_name : Option String → CResult (List Char)
  | none => CResult.ok []
  | some s =>
    if s.length > 15 then CResult.fatal "Map name exceeds 15 chars: %s"
    else CResult.ok s.data

/-- The tile-reading part of the data loop (engine.c lines 204-208): each
raw JSON number is cast to `uint64_t` for the range check (a negative
double makes that cast undefined behaviour, hence `crash`; the
always-false `< 0` half of the C condition is dropped) and stored as
`uint16_t` into the `bump_alloc(2 * size.x * size.y)` buffer; storing at
an index at or past `cap = size.x * size.y` is an out-of-bounds write. -/
def read_tiles (cap : Int) : List ℚ → Int → CResult (List Nat)
  | [], _ => CResult.ok []
  | q :: rest, i =>
    let t := c_int_of_rat q
    if t < 0 then CResult.crash
    else if t > 0xFFFF then CResult.fatal "tile is out of range"
    else if cap ≤ i then CResult.crash
    else
      match read_tiles cap rest (i + 1) with
      | CResult.ok ts => CResult.ok (t.toNat :: ts)
      | CResult.fatal e => CResult.fatal e
      | CResult.crash => CResult.crash

/-- One iteration of the min/max tracking in the data loop (engine.c
lines 210-214), exactly as coded: `if (tile > 0 && tile < min_tile)`
updates the minimum, `else if (tile > 0 && tile > max_tile)` updates the
maximum. -/
def scan_step (mm : Nat × Nat) (tile : Nat) : Nat × Nat :=
  if tile > 0 ∧ tile < mm.1 then (tile, mm.2)
  else if tile > 0 ∧ tile > mm.2 then (mm.1, tile)
  else mm

/-- The min/max tracking over the whole data array (engine.c lines
198-215), starting from `min_tile = 0xFFFF`, `max_tile = 0`. -/
def scan_min_max (tiles : List Nat) : Nat × Nat :=
  tiles.foldl scan_step (0xFFFF, 0)

/-- The tileset match test (engine.c line 225):
`min_tile >= ts.first_gid && max_tile <= ts.first_gid + ts.tile_count`,
both bounds inclusive as coded. -/
def tileset_matches (ts : tiled_tileset_t) (min_tile max_tile : Nat) : Bool :=
  decide (ts.first_gid ≤ min_tile) && decide (max_tile ≤ ts.first_gid + ts.tile_count)

/-- The tileset search loop (engine.c lines 222-229) with its running
index: the first matching registry entry wins and the loop breaks. -/
def find_matching_tileset_aux (min_tile max_tile : Nat) :
    List tiled_tileset_t → Nat → Option Nat
  | [], _ => none
  | ts :: rest, i =>
    if tileset_matches ts min_tile max_tile then some i
    else find_matching_tileset_aux min_tile max_tile rest (i + 1)

/-- `matched_tileset_idx` (engine.c lines 222-231): index of the first
registered tileset matching the scanned min/max, in declaration order;
`none` when no registered tileset matches (which the caller turns into
the fatal "No matching tileset found" error). -/
def find_matching_tileset (tss : List tiled_tileset_t) (min_tile max_tile : Nat) : Option Nat :=
  find_matching_tileset_aux min_tile max_tile tss 0

/-- First index at which `pat` occurs in `s` (the C `strstr`, as an
index), with the running-position accumulator. -/
def strstr_idx_aux (pat : List Char) : List Char → Nat → Option Nat
  | [], i => if pat.isPrefixOf ([] : List Char) then some i else none
  | c :: rest, i =>
    if pat.isPrefixOf (c :: rest) then some i
    else strstr_idx_aux pat rest (i + 1)

/-- `strstr(s, pat)` as the index of the first occurrence of `pat` in
`s`, or `none`. -/
def strstr_idx (s pat : List Char) : Option Nat := strstr_idx_aux pat s 0

/-- The extension rewrite (engine.c lines 249-250):
`strcpy(strstr(path, ".png"), ".qoi")`.  With no `.png` occurrence,
`strstr` yields `NULL` and the `strcpy` is a null-pointer write
(`crash`); otherwise the copied `".qoi\0"` terminates the C string right
after the replacement, so everything past the occurrence is dropped. -/
def png_rewrite (s : List Char) : CResult (List Char) :=
  match strstr_idx s (chars ".png") with
  | none => CResult.crash
  | some i => CResult.ok (s.take i ++ chars ".qoi")

/-- Image path resolution (engine.c lines 241-252): parent directory of
the matched tileset's `tsj_path` (a `NULL` parent or a `NULL` image
reference feeds `NULL` to `snprintf %s`, undefined behaviour), joined by
`/` with the tileset's raw image reference into a 256-byte buffer
(`snprintf` returns the full length; `>= 256` is fatal), normalized, then
`.png` rewritten to `.qoi`. -/
def resolve_image_path (tsj_path : List Char) (image_path : Option (List Char)) :
    CResult (List Char) :=
  match image_path with
  | none => CResult.crash
  | some img =>
    match parent_dir tsj_path with
    | none => CResult.crash
    | some folder =>
      let joined := folder ++ [ '/' ] ++ img
      if 256 ≤ joined.length then CResult.fatal "path is too long or short!"
      else
        match norm_path joined with
        | CResult.ok p => png_rewrite p
        | CResult.fatal e => CResult.fatal e
        | CResult.crash => CResult.crash

/-- The tile-id rewrite of one grid entry (engine.c lines 256-260):
`map->data[i] -= firstgid - 1` on `uint16_t` entries when the entry is
nonzero, with the `uint16_t` wraparound of the C subtraction made
explicit. -/
def rewrite_tile (firstgid : Nat) (t : Nat) : Nat :=
  if t > 0 then (((t : Int) - ((firstgid : Int) - 1)).emod 65536).toNat else t

/-- The tile-id rewrite loop (engine.c lines 255-260) over the stored
grid. -/
def rewrite_tiles (grid : List Nat) (firstgid : Nat) : List Nat :=
  grid.map (rewrite_tile firstgid)

/-- `map_from_tiled_layer_json` (engine.c lines 143-263).  `is_running`
is the `engine_is_running()` collaborator flag.  Steps, in source order:
running check; non-`"tilelayer"` type returns `NULL` (`ok none`); sizes
and tile size; parallax; custom properties; name; the data loop (absent
`data` fatal; range-check, store — past-the-buffer stores and, later,
reads of grid cells never stored are undefined behaviour — and min/max
scan); the empty-layer early return when `max_tile == 0`; tileset
resolution (no match fatal); image path resolution; firstgid rewrite. -/
def map_from_tiled_layer_json (is_running : Bool) (l : layer_def_t) (info : tiled_map_info_t) :
    CResult (Option map_t) :=
  if is_running then CResult.fatal "Cannot create map during gameplay"
  else if l.ltype ≠ some "tilelayer" then CResult.ok none
  else
    let size_x := c_int_of_rat (json_number l.width)
    let size_y := c_int_of_rat (json_number l.height)
    match parallax_distance l.parallaxx l.parallaxy with
    | CResult.fatal e => CResult.fatal e
    | CResult.crash => CResult.crash
    | CResult.ok dist =>
      match read_props l.properties with
      | CResult.fatal e => CResult.fatal e
      | CResult.crash => CResult.crash
      | CResult.ok fgrep =>
        match read_map_name l.name with
        | CResult.fatal e => CResult.fatal e
        | CResult.crash => CResult.crash
        | CResult.ok nm =>
          match l.data with
          | none => CResult.fatal "map has no data"
          | some d =>
            match read_tiles (size_x * size_y) d 0 with
            | CResult.fatal e => CResult.fatal e
            | CResult.crash => CResult.crash
            | CResult.ok grid =>
              let mm := scan_min_max grid
              if mm.2 = 0 then
                CResult.ok (some
                  { size_x := size_x, size_y := size_y, tile_size := info.tile_size,
                    distance := dist, foreground := fgrep.1, repeat_flag := fgrep.2,
                    name := nm, data := grid, tileset := none })
              else
                match find_matching_tileset info.tilesets mm.1 mm.2 with
                | none => CResult.fatal "No matching tileset found for given layer"
                | some idx =>
                  let ts := info.tilesets.getD idx default
                  match resolve_image_path ts.tsj_path ts.image_path with
                  | CResult.fatal e => CResult.fatal e
                  | CResult.crash => CResult.crash
                  | CResult.ok img =>
                    if (grid.length : Int) < size_x * size_y then CResult.crash
                    else
                      CResult.ok (some
                        { size_x := size_x, size_y := size_y, tile_size := info.tile_size,
                          distance := dist, foreground := fgrep.1, repeat_flag := fgrep.2,
                          name := nm, data := rewrite_tiles grid ts.first_gid,
                          tileset := some img })


/-! ## Object Layer Loader (`entities_from_tiled_layer_json`, engine.c lines 265-318) -/

/-- An object definition inside an object layer: the keys read by the
loader.  The authoring `id` is a JSON integer (the C code truncates the
stored double with `(int)id_v->number`), embedded as `Option Int`. -/
structure tiled_object_t where
  otype : Option String
  x : Option ℚ
  y : Option ℚ
  height : Option ℚ
  id : Option Int
deriving DecidableEq, Inhabited

/-- A spawned engine entity as far as this loader observes it: its type,
spawn position and display name.  The entity-runtime collaborator
(`entity_spawn`) is modelled from the spec (section 6) as always
producing an entity with these fields; `name` starts `none` and is set by
the loaders. -/
structure entity_t where
  etype : Nat
  pos_x : ℚ
  pos_y : ℚ
  name : Option String
deriving DecidableEq, Inhabited

/-- One iteration of the object loop (engine.c lines 278-317): a missing
`type` key or a name unknown to the `entity_type_by_name` collaborator
(`lookup`, modelled from the spec section 6, `none` = unrecognized) is
fatal; the spawn position converts the authoring bottom-left origin with
`y - height`; the entity's name is the `snprintf("%d", id)` decimal string
of the object's `id` (at most 5 digits here, so the 15-byte cap never
truncates), `id` must be present and `id < 0 || id >= UINT16_MAX` is
fatal.  The properties-to-settings block is compiled out (`#if 0`). -/
def spawn_tiled_object (lookup : String → Option Nat) (obj : tiled_object_t) :
    CResult entity_t :=
  match obj.otype with
  | none => CResult.fatal "Entity has no type"
  | some tn =>
    match lookup tn with
    | none => CResult.fatal "Unknown entity type %s"
    | some ty =>
      let h := json_number obj.height
      let px := json_number obj.x
      let py := json_number obj.y - h
      match obj.id with
      | none => CResult.fatal "Expected id"
      | some id =>
        if id < 0 ∨ 65535 ≤ id then CResult.fatal "id out of range"
        else CResult.ok { etype := ty, pos_x := px, pos_y := py, name := some (toString id) }

/-- Error-propagating map over a list, the shape of the C loops that die
on the first bad element. -/
def cresult_mapM {α β : Type} (f : α → CResult β) : List α → CResult (List β)
  | [] => CResult.ok []
  | a :: rest =>
    match f a with
    | CResult.ok b =>
      match cresult_mapM f rest with
      | CResult.ok bs => CResult.ok (b :: bs)
      | CResult.fatal e => CResult.fatal e
      | CResult.crash => CResult.crash
    | CResult.fatal e => CResult.fatal e
    | CResult.crash => CResult.crash

/-- `entities_from_tiled_layer_json` (engine.c lines 265-318): a missing
`objects` key is fatal, then every object is spawned in order.  The
`entity_settings` scratch array sized by `objects->len` is only written
inside the `#if 0` block, so this loader applies no settings. -/
def entities_from_tiled_layer_json (lookup : String → Option Nat)
    (objects : Option (List tiled_object_t)) : CResult (List entity_t) :=
  match objects with
  | none => CResult.fatal "No objects in layer"
  | some objs => cresult_mapM (spawn_tiled_object lookup) objs

/-! ## Native-format entity load (`engine_load_level`, engine.c lines 424-465) -/

/-- An entity's `settings` object in the native format: the optional
`name` string copied in phase 1 (present iff the key holds a JSON
string), plus the rest of the settings payload, abstracted as a value of
type `σ` handed to the settings-application collaborator. -/
structure entity_settings_t (σ : Type) where
  name : Option String
  blob : σ
deriving DecidableEq, Inhabited

/-- An entry of the native format's `entities[]` array: required `type`,
numeric `x`/`y`, optional `settings` object (`none` also covers a
present-but-not-JSON-object value, which the code ignores the same
way). -/
structure entity_def_t (σ : Type) where
  etype_name : Option String
  x : Option ℚ
  y : Option ℚ
  settings : Option (entity_settings_t σ)
deriving DecidableEq, Inhabited

/-- Phase 1 of the native entity load for one definition (engine.c lines
436-454): missing `type` fatal, unrecognized type fatal, spawn at
`(x, y)`, and copy the settings-provided `name` over the spawn default
when present. -/
def spawn_native_entity {σ : Type} (lookup : String → Option Nat) (d : entity_def_t σ) :
    CResult entity_t :=
  match d.etype_name with
  | none => CResult.fatal "Entity has no type"
  | some tn =>
    match lookup tn with
    | none => CResult.fatal "Unknown entity type %s"
    | some ty =>
      CResult.ok
        { etype := ty, pos_x := json_number d.x, pos_y := json_number d.y,
          name := d.settings.bind (fun s => s.name) }

/-- The observable calls the native entity load makes into the entity
runtime, in order: `entity_spawn` for the definition at index `i`, and
`entity_settings` for the definition at index `i`. -/
inductive load_event where
  | spawn (i : Nat) : load_event
  | apply_settings (i : Nat) : load_event
deriving DecidableEq

/-- Phase 1 of the native entity load (the loop at engine.c lines
435-460), threading the running definition index: spawns every entity in
array order, emitting a `spawn` event per successful spawn (a fatal check
stops the process, keeping the events already emitted), and records per
definition the spawned entity together with its settings blob when a
settings object is present (the `entity_settings[entity_settings_len++]`
bookkeeping). -/
def native_phase1 {σ : Type} (lookup : String → Option Nat) :
    List (entity_def_t σ) → Nat → List load_event × CResult (List (Nat × entity_t × Option σ))
  | [], _ => ([], CResult.ok [])
  | d :: rest, i =>
    match spawn_native_entity lookup d with
    | CResult.fatal e => ([], CResult.fatal e)
    | CResult.crash => ([], CResult.crash)
    | CResult.ok ent =>
      let r := native_phase1 lookup rest (i + 1)
      (load_event.spawn i :: r.1,
        match r.2 with
        | CResult.ok items =>
          CResult.ok ((i, ent, d.settings.map (fun s => s.blob)) :: items)
        | CResult.fatal e => CResult.fatal e
        | CResult.crash => CResult.crash)

/-- The entity part of `engine_load_level` (engine.c lines 424-464):
phase 1 spawns every entity, then phase 2 walks the recorded
`entity_settings` array in order, emitting an `apply_settings` event and
applying the settings-application collaborator to each recorded entity.
`app` models `entity_settings(entity, settings)` from the spec (section
6): a pure update of the target entity from its spawn state, its settings
blob and the full collection of spawned entities (which is what name
references resolve against once every entity exists).  Returns the event
trace and the final entity collection. -/
def engine_load_level_entities {σ : Type} (lookup : String → Option Nat)
    (app : entity_t → σ → Multiset entity_t → entity_t)
    (defs : List (entity_def_t σ)) : List load_event × CResult (List entity_t) :=
  let r := native_phase1 lookup defs 0
  match r.2 with
  | CResult.fatal e => (r.1, CResult.fatal e)
  | CResult.crash => (r.1, CResult.crash)
  | CResult.ok items =>
    let env : Multiset entity_t := ↑(items.map (fun it => it.2.1))
    let applyEvs :=
      (items.filter (fun it => it.2.2.isSome)).map (fun it => load_event.apply_settings it.1)
    (r.1 ++ applyEvs,
      CResult.ok (items.map (fun it =>
        match it.2.2 with
        | some blob => app it.2.1 blob env
        | none => it.2.1)))

/-! ## Level Load Orchestrator, native format (`engine_load_level`, engine.c lines 402-466) -/

/-- An entry of the native format's `maps[]` array as this loader
observes it: its `name` key.  Building the map itself is the
`map_from_json` collaborator (map.c, not part of this material), modelled
from the spec (section 4.5: each entry is "built independently") as
carrying the definition through. -/
structure native_map_def_t where
  name : Option String
deriving DecidableEq, Inhabited

/-- The engine-owned level state populated by a native-format load: the
single collision-map slot and the ordered background list. -/
structure level_state_t where
  collision_map : Option native_map_def_t
  background_maps : List native_map_def_t
deriving DecidableEq, Inhabited

/-- A native-format level document: the `maps` and `entities` keys
(`none` = key absent). -/
structure level_doc_t (σ : Type) where
  maps : Option (List native_map_def_t)
  entities : Option (List (entity_def_t σ))
deriving DecidableEq, Inhabited

/-- The maps loop of `engine_load_level` (engine.c lines 410-421): each
entry named exactly `"collision"` fills the collision slot, every other
entry is `engine_add_background_map` (engine.c lines 468-471), which is
fatal once the fixed bound `max_bg` (`ENGINE_MAX_BACKGROUND_MAPS`, an
engine-header constant outside this material) is reached. -/
def load_native_maps_step (max_bg : Nat) (acc : CResult level_state_t)
    (md : native_map_def_t) : CResult level_state_t :=
  match acc with
  | CResult.ok st =>
    if md.name = some "collision" then CResult.ok { st with collision_map := some md }
    else if max_bg ≤ st.background_maps.length then
      CResult.fatal "BACKGROUND_MAPS_MAX reached"
    else CResult.ok { st with background_maps := st.background_maps ++ [md] }
  | e => e

/-- The maps loop itself, folding `load_native_maps_step` over the
`maps[]` entries in order from the freshly reset state. -/
def load_native_maps (max_bg : Nat) (maps : List native_map_def_t) : CResult level_state_t :=
  maps.foldl (load_native_maps_step max_bg)
    (CResult.ok { collision_map := none, background_maps := [] })

/-- `engine_load_level` (engine.c lines 402-466): a failed document load
is fatal; state is reset; the guarded maps loop tolerates an absent
`maps` key; then the stack array `entity_settings[entities->len]`
(engine.c line 432) reads `entities->len` with no null check, so an
absent `entities` key is a null dereference (`crash`) before the guarded
entity loop is reached; finally the two-phase entity load runs. -/
def engine_load_level {σ : Type} (lookup : String → Option Nat)
    (app : entity_t → σ → Multiset entity_t → entity_t) (max_bg : Nat)
    (doc : Option (level_doc_t σ)) : CResult (level_state_t × List entity_t) :=
  match doc with
  | none => CResult.fatal "Could not load level json at %s"
  | some j =>
    match load_native_maps max_bg (j.maps.getD []) with
    | CResult.fatal e => CResult.fatal e
    | CResult.crash => CResult.crash
    | CResult.ok st =>
      match j.entities with
      | none => CResult.crash
      | some defs =>
        match (engine_load_level_entities lookup app defs).2 with
        | CResult.fatal e => CResult.fatal e
        | CResult.crash => CResult.crash
        | CResult.ok ents => CResult.ok (st, ents)

/-! ## Tileset Registry loading (`engine_load_level_tiled`, engine.c lines 336-368) -/

/-- One entry of the project's `tilesets[]` array together with the
tileset document the asset-loading collaborator returns for its `source`
path (spec section 6; the document's keys are carried alongside the
entry). -/
structure tileset_entry_t where
  source : Option String
  firstgid : Option ℚ
  doc_tilecount : Option ℚ
  doc_tilewidth : Option ℚ
  doc_tileheight : Option ℚ
  doc_image : Option String
deriving DecidableEq, Inhabited

/-- The C assignment of a JSON double to a `uint16_t` variable.  For the
in-range values the loader deals in this is plain truncation; an
out-of-range double would be undefined behaviour in C. -/
def to_u16 (q : ℚ) : Nat := (c_int_of_rat q).toNat % 65536

/-- One iteration of the tileset loop (engine.c lines 338-368), storing
into the registry whose array index is the current length: a `NULL`
`source` string fed to `snprintf %s` is undefined behaviour; the
`project_dir/source` join is fatal at 256 bytes; a zero `tilecount` is
fatal; then `info.tilesets[i] = ...` stores the descriptor with NO bound
check against `MAX_TILESETS = 8` — storing a ninth descriptor writes past
the end of the array (`crash`). -/
def load_tilesets_step (project_dir : List Char) (acc : List tiled_tileset_t)
    (e : tileset_entry_t) : CResult (List tiled_tileset_t) :=
  match e.source with
  | none => CResult.crash
  | some src =>
    let tsj := project_dir ++ [ '/' ] ++ chars src
    if 256 ≤ tsj.length then CResult.fatal "path is too long or short!"
    else
      let tile_count := to_u16 (json_number e.doc_tilecount)
      if tile_count = 0 then CResult.fatal "tilecount is 0"
      else if 8 ≤ acc.length then CResult.crash
      else
        CResult.ok (acc ++
          [{ first_gid := to_u16 (json_number e.firstgid), tile_count := tile_count,
             tile_width := to_u16 (json_number e.doc_tilewidth),
             tile_height := to_u16 (json_number e.doc_tileheight),
             image_path := e.doc_image.map chars, tsj_path := tsj }])

/-- The tileset-loading phase of `engine_load_level_tiled` (engine.c
lines 336-368): the `tilesets[]` entries are processed in declaration
order into the registry. -/
def engine_load_level_tiled_tilesets (project_dir : List Char)
    (entries : List tileset_entry_t) : CResult (List tiled_tileset_t) :=
  entries.foldl
    (fun acc e =>
      match acc with
      | CResult.ok l => load_tilesets_step project_dir l e
      | err => err)
    (CResult.ok [])

/-! ## Concrete inputs used by the claim theorems -/

/-- A 1x1 tile layer whose single tile id is 5. -/
def c1_layer : layer_def_t :=
  { name := some "l", ltype := some "tilelayer", width := some 1, height := some 1,
    parallaxx := none, parallaxy := none, properties := none, data := some [5] }

/-- A registered tileset whose id range [1, 11] covers tile id 5. -/
def c1_ts : tiled_tileset_t :=
  { first_gid := 1, tile_count := 10, tile_width := 8, tile_height := 8,
    image_path := some (chars "t.png"), tsj_path := chars "p/t.tsj" }

/-- A registry holding `c1_ts`. -/
def c1_info : tiled_map_info_t := { tile_size := 8, tilesets := [c1_ts] }

/-- A 2x1 tile layer with data `[1, 11]`. -/
def c2_layer : layer_def_t :=
  { name := some "l", ltype := some "tilelayer", width := some 2, height := some 1,
    parallaxx := none, parallaxy := none, properties := none, data := some [1, 11] }

/-- A 3x1 tile layer with data `[20, 3, 10]`. -/
def c2_layer_b : layer_def_t :=
  { name := some "l", ltype := some "tilelayer", width := some 3, height := some 1,
    parallaxx := none, parallaxy := none, properties := none, data := some [20, 3, 10] }

/-- Claim C1 (code bug).  The claim says the data-loop scan computes the
minimum and maximum nonzero tile id and that `max_tile` is zero exactly
when every tile is zero.  The scan as coded (engine.c lines 210-214) uses
`else if` for the maximum update, so a tile that lowers the running
minimum never feeds the maximum: on data `[5]` (one nonzero tile) the
scan ends with `max_tile = 0`, and `map_from_tiled_layer_json` takes the
empty-layer diagnostic path, returning the map with no tileset resolved
even though tileset `c1_ts` matches tile 5. -/
theorem C1_scan_drops_max :
    scan_min_max [5] = (5, 0) ∧
    (5 : Nat) ∈ [5] ∧ (5 : Nat) ≠ 0 ∧
    tileset_matches c1_ts 5 5 = true ∧
    map_from_tiled_layer_json false c1_layer c1_info
      = CResult.ok (some
        { size_x := 1, size_y := 1, tile_size := 8, distance := 1, foreground := false,
          repeat_flag := none, name := chars "l", data := [5], tileset := none }) := by
  decide

/-- Claim C2 (code bug).  The claim says every nonzero entry of a
successfully built layer's grid lies in `[1, tile_count]` after the
firstgid rewrite.  With tileset `c1_ts` (`first_gid = 1`,
`tile_count = 10`): the inclusive match bound
`max_tile <= first_gid + tile_count` (engine.c line 225) accepts data
`[1, 11]`, whose rewritten grid keeps the entry `11 > 10`; and the broken
maximum scan (see C1) accepts data `[20, 3, 10]` (scanned max 10), whose
rewritten grid keeps the entry `20 > 10`.  The rewrite itself maps
`t > 0` to `t - (first_gid - 1)` and leaves 0 unchanged, as claimed. -/
theorem C2_rewrite_out_of_range :
    map_from_tiled_layer_json false c2_layer { tile_size := 8, tilesets := [c1_ts] }
      = CResult.ok (some
        { size_x := 2, size_y := 1, tile_size := 8, distance := 1, foreground := false,
          repeat_flag := none, name := chars "l", data := [1, 11],
          tileset := some (chars "p/t.qoi") }) ∧
    (11 : Nat) > c1_ts.tile_count ∧
    map_from_tiled_layer_json false c2_layer_b { tile_size := 8, tilesets := [c1_ts] }
      = CResult.ok (some
        { size_x := 3, size_y := 1, tile_size := 8, distance := 1, foreground := false,
          repeat_flag := none, name := chars "l", data := [20, 3, 10],
          tileset := some (chars "p/t.qoi") }) ∧
    (20 : Nat) > c1_ts.tile_count := by
  decide

/-- A path of 33 components. -/
def c3_path33 : List Char := chars (String.intercalate "/" (List.replicate 33 "a"))

/-- Claim C3 (code bug).  The claim (and the spec's testable property)
says `normalize("a/../b") = "b"`.  The backward search for the component
a `..` consumes runs `for (j = i - 1; j > 0; j--)` (engine.c line 120),
so the component in slot 0 is never consumed: the code yields `"a/b"`.
`normalize("a/b/../c") = "a/c"`, the fatal leading-`..` case and the
fatal more-than-32-components case behave as claimed. -/
theorem C3_norm_path_keeps_first_component :
    norm_path (chars "a/b/../c") = CResult.ok (chars "a/c") ∧
    norm_path (chars "a/../b") = CResult.ok (chars "a/b") ∧
    chars "a/b" ≠ chars "b" ∧
    norm_path (chars "../a") = CResult.fatal "Cant resolve parent/upper dir" ∧
    norm_path c3_path33 = CResult.fatal "Too many parts" := by
  decide

/-- A well-formed tileset entry: readable source, nonzero tile count. -/
def c6_entry : tileset_entry_t :=
  { source := some "t.tsj", firstgid := some 1, doc_tilecount := some 10,
    doc_tilewidth := some 8, doc_tileheight := some 8, doc_image := some "t.png" }

/-- The descriptor `c6_entry` stores under project directory `"proj"`. -/
def c6_stored : tiled_tileset_t :=
  { first_gid := 1, tile_count := 10, tile_width := 8, tile_height := 8,
    image_path := some (chars "t.png"), tsj_path := chars "proj/t.tsj" }

/-- Claim C6 (code bug).  The claim says a ninth tileset is rejected with
a fatal error before being stored.  The loop at engine.c lines 338-368
has no bound check against `MAX_TILESETS = 8`: eight entries load fine,
and the ninth store `info.tilesets[8] = ...` is an out-of-bounds write
(undefined behaviour), not a fatal error. -/
theorem C6_ninth_tileset_overflows :
    engine_load_level_tiled_tilesets (chars "proj") (List.replicate 8 c6_entry)
      = CResult.ok (List.replicate 8 c6_stored) ∧
    engine_load_level_tiled_tilesets (chars "proj") (List.replicate 9 c6_entry)
      = CResult.crash := by
  exact ⟨by decide, by decide⟩

/-! ## Claim C7: object spawning -/

/-- Error-propagating loops process exactly the input elements in order:
an `ok` result has one output per input, each produced by `f` from the
input at the same index. -/
theorem cresult_mapM_ok_get {α β : Type} [Inhabited α] [Inhabited β] (f : α → CResult β)
    (l : List α) (r : List β) (h : cresult_mapM f l = CResult.ok r) :
    r.length = l.length ∧
    ∀ i, i < l.length → f (l.getD i default) = CResult.ok (r.getD i default) := by
  induction l generalizing r with
  | nil =>
    simp only [cresult_mapM] at h
    injection h with h2
    subst h2
    simp
  | cons a rest ih =>
    simp only [cresult_mapM] at h
    cases hfa : f a with
    | ok b =>
      rw [hfa] at h
      cases hrest : cresult_mapM f rest with
      | ok bs =>
        rw [hrest] at h
        injection h with h2
        subst h2
        obtain ⟨hlen, hget⟩ := ih bs hrest
        refine ⟨by simp [hlen], ?_⟩
        intro i hi
        cases i with
        | zero => simpa using hfa
        | succ n =>
          simpa using hget n (by simpa using hi)
      | fatal e => rw [hrest] at h; exact CResult.noConfusion h
      | crash => rw [hrest] at h; exact CResult.noConfusion h
    | fatal e => rw [hfa] at h; exact CResult.noConfusion h
    | crash => rw [hfa] at h; exact CResult.noConfusion h

/-- Claim C7, amended.  For every object definition processed by
`entities_from_tiled_layer_json`: a missing or unrecognized type is
fatal; a successfully spawned entity sits at
`(x_raw, y_raw - height)` and is named the decimal string of the object's
`id`; a missing `id` is fatal; and an `id` outside `[0, 65534]` is fatal
(the check `id < 0 || id >= UINT16_MAX` at engine.c line 297 also rejects
65535, the top of the unsigned 16-bit range — this is the amendment). -/
theorem C7_object_spawn (lookup : String → Option Nat) (obj : tiled_object_t) :
    (obj.otype = none → spawn_tiled_object lookup obj = CResult.fatal "Entity has no type") ∧
    (∀ tn, obj.otype = some tn → lookup tn = none →
      spawn_tiled_object lookup obj = CResult.fatal "Unknown entity type %s") ∧
    (∀ tn ty, obj.otype = some tn → lookup tn = some ty → obj.id = none →
      spawn_tiled_object lookup obj = CResult.fatal "Expected id") ∧
    (∀ tn ty id, obj.otype = some tn → lookup tn = some ty → obj.id = some id →
      (id < 0 ∨ 65535 ≤ id) →
      spawn_tiled_object lookup obj = CResult.fatal "id out of range") ∧
    (∀ e, spawn_tiled_object lookup obj = CResult.ok e →
      e.pos_x = json_number obj.x ∧
      e.pos_y = json_number obj.y - json_number obj.height ∧
      ∃ id, obj.id = some id ∧ 0 ≤ id ∧ id < 65535 ∧ e.name = some (toString id)) ∧
    (∀ objs ents, entities_from_tiled_layer_json lookup (some objs) = CResult.ok ents →
      ents.length = objs.length ∧
      ∀ i, i < objs.length →
        spawn_tiled_object lookup (objs.getD i default) = CResult.ok (ents.getD i default)) := by
  refine ⟨?_, ?_, ?_, ?_, ?_, ?_⟩
  · intro h; simp [spawn_tiled_object, h]
  · intro tn h hl; simp [spawn_tiled_object, h, hl]
  · intro tn ty h hl hid; simp [spawn_tiled_object, h, hl, hid]
  · intro tn ty id h hl hid hrange
    simp only [spawn_tiled_object, h, hl, hid]
    rw [if_pos hrange]
  · intro e he
    cases hot : obj.otype with
    | none => simp only [spawn_tiled_object, hot] at he; exact CResult.noConfusion he
    | some tn =>
      cases hl : lookup tn with
      | none =>
        simp only [spawn_tiled_object, hot, hl] at he
        exact CResult.noConfusion he
      | some ty =>
        cases hid : obj.id with
        | none =>
          simp only [spawn_tiled_object, hot, hl, hid] at he
          exact CResult.noConfusion he
        | some id =>
          by_cases hr : id < 0 ∨ 65535 ≤ id
          · simp only [spawn_tiled_object, hot, hl, hid, if_pos hr] at he
            exact CResult.noConfusion he
          · simp only [spawn_tiled_object, hot, hl, hid, if_neg hr] at he
            injection he with he2
            subst he2
            push_neg at hr
            exact ⟨rfl, rfl, id, rfl, hr.1, hr.2, rfl⟩
  · intro objs ents h
    simp only [entities_from_tiled_layer_json] at h
    exact cresult_mapM_ok_get (spawn_tiled_object lookup) objs ents h

/-- A concrete `entity_type_by_name` collaborator recognizing `"Player"`. -/
def c7_lookup : String → Option Nat := fun s => if s = "Player" then some 1 else none

/-- An object whose authoring id is 65535, the top of the unsigned
16-bit range. -/
def c7_obj_bad : tiled_object_t :=
  { otype := some "Player", x := some 10, y := some 50, height := some 20, id := some 65535 }

/-- Claim C7, counterexample to the claim as stated: id 65535 lies inside
the unsigned 16-bit range `[0, 2^16 - 1]`, yet the loader's check
`id < 0 || id >= UINT16_MAX` kills the process instead of naming the
entity `"65535"`. -/
theorem C7_id_65535_rejected :
    spawn_tiled_object c7_lookup c7_obj_bad = CResult.fatal "id out of range" ∧
    (0 ≤ (65535 : Int) ∧ (65535 : Int) ≤ 2 ^ 16 - 1) := by
  decide

/-- The spec's end-to-end example object: `{type:"Player", id:7, x:10,
y:50, height:20}`. -/
def c7_obj_ok : tiled_object_t :=
  { otype := some "Player", x := some 10, y := some 50, height := some 20, id := some 7 }

/-- Witness for `C7_object_spawn` at the spec's example object: the
entity spawns at `(10, 30)` named `"7"`, and the theorem's hypotheses are
all dischargeable there. -/
theorem C7_object_spawn_witness :
    spawn_tiled_object c7_lookup c7_obj_ok
      = CResult.ok { etype := 1, pos_x := 10, pos_y := 30, name := some "7" } ∧
    ({ etype := 1, pos_x := 10, pos_y := 30, name := some "7" } : entity_t).pos_y
      = json_number c7_obj_ok.y - json_number c7_obj_ok.height ∧
    ∃ id, c7_obj_ok.id = some id ∧ 0 ≤ id ∧ id < 65535 ∧
      ({ etype := 1, pos_x := 10, pos_y := 30, name := some "7" } : entity_t).name
        = some (toString id) := by
  have hspawn : spawn_tiled_object c7_lookup c7_obj_ok
      = CResult.ok { etype := 1, pos_x := 10, pos_y := 30, name := some "7" } := by
    simp only [spawn_tiled_object, c7_lookup, c7_obj_ok, json_number, Option.getD_some]
    norm_num
    rfl
  exact ⟨hspawn, ((C7_object_spawn c7_lookup c7_obj_ok).2.2.2.2.1 _ hspawn).2.1,
    ((C7_object_spawn c7_lookup c7_obj_ok).2.2.2.2.1 _ hspawn).2.2⟩

/-! ## Claim C5: tileset resolution -/

/-- The match test as a proposition: the scanned range must sit inside
`[first_gid, first_gid + tile_count]`, both ends inclusive. -/
theorem tileset_matches_iff (ts : tiled_tileset_t) (a b : Nat) :
    tileset_matches ts a b = true ↔
      (ts.first_gid ≤ a ∧ b ≤ ts.first_gid + ts.tile_count) := by
  simp [tileset_matches]

/-- Characterization of the search loop with its running index: it
returns `some i` exactly for the first matching entry. -/
theorem find_matching_tileset_aux_some_iff (min_tile max_tile : Nat)
    (tss : List tiled_tileset_t) :
    ∀ (k i : Nat),
      find_matching_tileset_aux min_tile max_tile tss k = some i ↔
        (k ≤ i ∧ i - k < tss.length ∧
          tileset_matches (tss.getD (i - k) default) min_tile max_tile = true ∧
          ∀ j, j < i - k → tileset_matches (tss.getD j default) min_tile max_tile = false) := by
  induction tss with
  | nil =>
    intro k i
    simp [find_matching_tileset_aux]
  | cons ts rest ih =>
    intro k i
    cases hm : tileset_matches ts min_tile max_tile with
    | true =>
      rw [show find_matching_tileset_aux min_tile max_tile (ts :: rest) k = some k from by
        simp [find_matching_tileset_aux, hm]]
      constructor
      · intro h
        injection h with h2
        subst h2
        refine ⟨le_refl k, by simp, by simpa using hm, ?_⟩
        intro j hj
        omega
      · rintro ⟨hki, _hlen, _hmatch, hall⟩
        by_cases h0 : i - k = 0
        · have hik : i = k := by omega
          rw [hik]
        · have hfalse := hall 0 (by omega)
          rw [List.getD_cons_zero, hm] at hfalse
          exact Bool.noConfusion hfalse
    | false =>
      rw [show find_matching_tileset_aux min_tile max_tile (ts :: rest) k
            = find_matching_tileset_aux min_tile max_tile rest (k + 1) from by
        simp [find_matching_tileset_aux, hm]]
      rw [ih (k + 1) i]
      constructor
      · rintro ⟨hki, hlen, hmatch, hall⟩
        refine ⟨by omega, by simp only [List.length_cons]; omega, ?_, ?_⟩
        · have hik : i - k = (i - (k + 1)) + 1 := by omega
          rw [hik, List.getD_cons_succ]
          exact hmatch
        · intro j hj
          cases j with
          | zero => rw [List.getD_cons_zero]; exact hm
          | succ j2 =>
            rw [List.getD_cons_succ]
            exact hall j2 (by omega)
      · rintro ⟨hki, hlen, hmatch, hall⟩
        have hne : i - k ≠ 0 := by
          intro h0
          rw [h0, List.getD_cons_zero, hm] at hmatch
          exact Bool.noConfusion hmatch
        refine ⟨by omega, by simp only [List.length_cons] at hlen; omega, ?_, ?_⟩
        · have hik : i - k = (i - (k + 1)) + 1 := by omega
          rw [hik, List.getD_cons_succ] at hmatch
          exact hmatch
        · intro j hj
          have hsucc := hall (j + 1) (by omega)
          rw [List.getD_cons_succ] at hsucc
          exact hsucc

/-- Claim C5.  Tileset resolution picks the first registered tileset, in
declaration order, with `first_gid <= min_tile` and
`max_tile <= first_gid + tile_count` (both inclusive) — so when several
registered ranges match, the earliest-declared one wins — and when no
registered tileset matches, `map_from_tiled_layer_json` (here shown at
the point where it reaches tileset resolution: a tile layer whose earlier
steps succeeded and whose scan produced a nonzero `max_tile`) dies with
the "No matching tileset" fatal error. -/
theorem C5_tileset_first_match (tss : List tiled_tileset_t) (min_tile max_tile : Nat) :
    (∀ i : Nat,
      find_matching_tileset tss min_tile max_tile = some i ↔
        (i < tss.length ∧
          ((tss.getD i default).first_gid ≤ min_tile ∧
            max_tile ≤ (tss.getD i default).first_gid + (tss.getD i default).tile_count) ∧
          ∀ j, j < i →
            ¬((tss.getD j default).first_gid ≤ min_tile ∧
              max_tile ≤ (tss.getD j default).first_gid + (tss.getD j default).tile_count))) ∧
    (find_matching_tileset tss min_tile max_tile = none →
      ∀ (l : layer_def_t) (info : tiled_map_info_t) (dist : ℚ) (fgrep : Bool × Option Bool)
        (nm : List Char) (d : List ℚ) (grid : List Nat),
        info.tilesets = tss →
        l.ltype = some "tilelayer" →
        parallax_distance l.parallaxx l.parallaxy = CResult.ok dist →
        read_props l.properties = CResult.ok fgrep →
        read_map_name l.name = CResult.ok nm →
        l.data = some d →
        read_tiles (c_int_of_rat (json_number l.width) * c_int_of_rat (json_number l.height)) d 0
          = CResult.ok grid →
        scan_min_max grid = (min_tile, max_tile) →
        max_tile ≠ 0 →
        map_from_tiled_layer_json false l info
          = CResult.fatal "No matching tileset found for given layer") := by
  constructor
  · intro i
    rw [find_matching_tileset, find_matching_tileset_aux_some_iff min_tile max_tile tss 0 i]
    constructor
    · rintro ⟨_, hlen, hmatch, hall⟩
      refine ⟨by simpa using hlen, ?_, ?_⟩
      · rw [← tileset_matches_iff]
        simpa using hmatch
      · intro j hj hcontra
        have hfalse := hall j (by omega)
        rw [(tileset_matches_iff _ _ _).mpr hcontra] at hfalse
        exact Bool.noConfusion hfalse
    · rintro ⟨hlen, hmatch, hall⟩
      refine ⟨Nat.zero_le i, by simpa using hlen, by simpa using (tileset_matches_iff _ _ _).mpr hmatch, ?_⟩
      intro j hj
      cases hb : tileset_matches (tss.getD j default) min_tile max_tile with
      | false => rfl
      | true =>
        exact absurd ((tileset_matches_iff _ _ _).mp hb) (hall j (by omega))
  · intro hnone l info dist fgrep nm d grid hts hty hpar hprops hname hdata htiles hscan hmax
    simp [map_from_tiled_layer_json, hty, hpar, hprops, hname, hdata, htiles, hts, hscan,
      hnone, hmax]

/-- A registered tileset with range [1, 11]. -/
def c5_tsA : tiled_tileset_t :=
  { first_gid := 1, tile_count := 10, tile_width := 8, tile_height := 8,
    image_path := some (chars "a.png"), tsj_path := chars "p/a.tsj" }

/-- A registered tileset with range [5, 15], overlapping `c5_tsA`. -/
def c5_tsB : tiled_tileset_t :=
  { first_gid := 5, tile_count := 10, tile_width := 8, tile_height := 8,
    image_path := some (chars "b.png"), tsj_path := chars "p/b.tsj" }

/-- A 2x1 tile layer with data `[3, 7]` (scanned range [3, 7]). -/
def c5_layer : layer_def_t :=
  { name := some "x", ltype := some "tilelayer", width := some 2, height := some 1,
    parallaxx := none, parallaxy := none, properties := none, data := some [3, 7] }

/-- Witness for `C5_tileset_first_match`: with the overlapping registry
`[c5_tsA, c5_tsB]` and scanned range [5, 9] both tilesets match and the
earliest-declared one (index 0) wins; and against an empty registry the
layer `c5_layer` (scanned range [3, 7]) dies with the "No matching
tileset" fatal error. -/
theorem C5_tileset_first_match_witness :
    find_matching_tileset [c5_tsA, c5_tsB] 5 9 = some 0 ∧
    map_from_tiled_layer_json false c5_layer { tile_size := 8, tilesets := [] }
      = CResult.fatal "No matching tileset found for given layer" := by
  constructor
  · exact ((C5_tileset_first_match [c5_tsA, c5_tsB] 5 9).1 0).mpr
      ⟨by decide, by decide, fun j hj => absurd hj (Nat.not_lt_zero j)⟩
  · exact (C5_tileset_first_match [] 3 7).2 rfl c5_layer _ 1 (false, none) (chars "x") [3, 7]
      [3, 7] rfl rfl (by decide) (by decide) (by decide) rfl (by decide) (by decide) (by decide)

/-! ## Claim C8: image path resolution -/

/-- The search loop behind `strstr_idx`: a hit at index `j` means the
pattern occurs at offset `j - i` of the remaining text. -/
theorem strstr_idx_aux_found (pat : List Char) :
    ∀ (s : List Char) (i j : Nat), strstr_idx_aux pat s i = some j →
      i ≤ j ∧ pat.isPrefixOf (s.drop (j - i)) = true := by
  intro s
  induction s with
  | nil =>
    intro i j h
    simp only [strstr_idx_aux] at h
    by_cases hp : pat.isPrefixOf ([] : List Char) = true
    · rw [if_pos hp] at h
      injection h with h2
      subst h2
      simpa using hp
    · rw [if_neg hp] at h
      exact Option.noConfusion h
  | cons c rest ih =>
    intro i j h
    simp only [strstr_idx_aux] at h
    by_cases hp : pat.isPrefixOf (c :: rest) = true
    · rw [if_pos hp] at h
      injection h with h2
      subst h2
      simpa using hp
    · rw [if_neg hp] at h
      obtain ⟨hij, hpre⟩ := ih (i + 1) j h
      refine ⟨by omega, ?_⟩
      have hji : j - i = (j - (i + 1)) + 1 := by omega
      rw [hji, List.drop_succ_cons]
      exact hpre

/-- Claim C8, amended.  The image path loaded for a matched tileset is
the parent directory of its `source_file_path` joined with its raw image
reference, normalized, with `.png` replaced by `.qoi` — and this rewrite
is bit-exact (only the extension differs from the normalized joined path)
whenever the FIRST occurrence of `.png` in the whole normalized joined
path is its final four characters (the amendment: `strstr` searches the
whole path, so a `.png` occurring earlier — e.g. inside a directory name
— is clobbered and the path truncated there instead). -/
theorem C8_image_path_rewrite (tsj img folder p : List Char)
    (hpd : parent_dir tsj = some folder)
    (hlen : (folder ++ [ '/' ] ++ img).length < 256)
    (hnorm : norm_path (folder ++ [ '/' ] ++ img) = CResult.ok p)
    (hpng : strstr_idx p (chars ".png") = some (p.length - 4)) :
    resolve_image_path tsj (some img)
      = CResult.ok (p.take (p.length - 4) ++ chars ".qoi") ∧
    p = p.take (p.length - 4) ++ chars ".png" := by
  obtain ⟨-, hpre⟩ := strstr_idx_aux_found (chars ".png") p 0 (p.length - 4) hpng
  rw [Nat.sub_zero, List.isPrefixOf_iff_prefix] at hpre
  obtain ⟨t, ht⟩ := hpre
  have h2 := congrArg List.length ht
  rw [List.length_append, List.length_drop] at h2
  have hc4 : (chars ".png").length = 4 := rfl
  rw [hc4] at h2
  have ht0 : t = [] := List.length_eq_zero.mp (by omega)
  subst ht0
  rw [List.append_nil] at ht
  constructor
  · simp only [resolve_image_path, hpd]
    rw [if_neg (by omega)]
    rw [hnorm]
    simp only [png_rewrite, hpng]
  · conv_lhs => rw [← List.take_append_drop (p.length - 4) p]
    rw [← ht]

/-- Claim C8, counterexample to the claim as stated: the image reference
`img.png` is `.png`-suffixed and contains exactly one occurrence of the
token (its first occurrence, index 3, is its suffix), yet with the
tileset file sitting in directory `a.png` the `strstr`-based rewrite hits
the directory name first and the loaded path is `a.qoi`, not the
bit-exact `a.png/img.qoi`. -/
theorem C8_directory_png_clobbered :
    resolve_image_path (chars "a.png/t.tsj") (some (chars "img.png"))
      = CResult.ok (chars "a.qoi") ∧
    strstr_idx (chars "img.png") (chars ".png") = some 3 ∧
    chars "img.png" = chars "img" ++ chars ".png" ∧
    chars "a.qoi" ≠ chars "a.png/img.qoi" := by
  decide

/-- Witness for `C8_image_path_rewrite`: a tileset file `assets/t.tsj`
with image reference `img.png` loads `assets/img.qoi`, bit-exact up to
the extension. -/
theorem C8_image_path_rewrite_witness :
    resolve_image_path (chars "assets/t.tsj") (some (chars "img.png"))
      = CResult.ok (chars "assets/img.qoi") ∧
    chars "assets/img.png"
      = (chars "assets/img.png").take ((chars "assets/img.png").length - 4)
        ++ chars ".png" := by
  have h := C8_image_path_rewrite (chars "assets/t.tsj") (chars "img.png") (chars "assets")
    (chars "assets/img.png") (by decide) (by decide) (by decide) (by decide)
  refine ⟨?_, h.2⟩
  have h1 := h.1
  rw [show (chars "assets/img.png").take ((chars "assets/img.png").length - 4) ++ chars ".qoi"
      = chars "assets/img.qoi" from by decide] at h1
  exact h1

/-! ## Claim C9: parallax -/

/-- Claim C9.  In `map_from_tiled_layer_json`: with `parallaxx` absent
the distance is 1; with `parallaxx = x` and `parallaxy = y` present,
`x = y ≠ 0` yields distance `x`, `x ≠ y` is the parallax-mismatch fatal
error, and `x = y = 0` is the zero-distance fatal error; with `parallaxx`
present and `parallaxy` absent the load is fatal (the `json_number`
collaborator reads the absent key as 0, which then fails the equality or
the zero check); a fatal parallax outcome is the tile-layer build's fatal
outcome, and any successfully built map carries the parallax distance. -/
theorem C9_parallax_rules (l : layer_def_t) (info : tiled_map_info_t) :
    (l.parallaxx = none → parallax_distance l.parallaxx l.parallaxy = CResult.ok 1) ∧
    (∀ x y : ℚ, l.parallaxx = some x → l.parallaxy = some y →
      ((x = y ∧ x ≠ 0) → parallax_distance l.parallaxx l.parallaxy = CResult.ok x) ∧
      (x ≠ y → parallax_distance l.parallaxx l.parallaxy
        = CResult.fatal "parallax.x and parallax.y has to be the same(=map.distance)") ∧
      ((x = y ∧ x = 0) → parallax_distance l.parallaxx l.parallaxy
        = CResult.fatal "invalid distance for map")) ∧
    (∀ x : ℚ, l.parallaxx = some x → l.parallaxy = none →
      ∃ e, parallax_distance l.parallaxx l.parallaxy = CResult.fatal e) ∧
    (∀ e, parallax_distance l.parallaxx l.parallaxy = CResult.fatal e →
      l.ltype = some "tilelayer" →
      map_from_tiled_layer_json false l info = CResult.fatal e) ∧
    (∀ (dist : ℚ) (m : map_t), parallax_distance l.parallaxx l.parallaxy = CResult.ok dist →
      map_from_tiled_layer_json false l info = CResult.ok (some m) →
      m.distance = dist) := by
  refine ⟨?_, ?_, ?_, ?_, ?_⟩
  · intro h
    simp [parallax_distance, h]
  · intro x y hx hy
    refine ⟨?_, ?_, ?_⟩
    · rintro ⟨rfl, hnz⟩
      simp [parallax_distance, hx, hy, json_number, hnz]
    · intro hne
      simp [parallax_distance, hx, hy, json_number, hne]
    · rintro ⟨rfl, rfl⟩
      simp [parallax_distance, hx, hy, json_number]
  · intro x hx hy
    by_cases h0 : x = 0
    · refine ⟨"invalid distance for map", ?_⟩
      subst h0
      simp [parallax_distance, hx, hy, json_number]
    · refine ⟨"parallax.x and parallax.y has to be the same(=map.distance)", ?_⟩
      simp [parallax_distance, hx, hy, json_number, h0]
  · intro e hpar hty
    simp [map_from_tiled_layer_json, hty, hpar]
  · intro dist m hpar hm
    by_cases hty : l.ltype = some "tilelayer"
    · simp only [map_from_tiled_layer_json, Bool.false_eq_true, if_false, hty, hpar,
        ne_eq, not_true_eq_false] at hm
      split at hm
      · exact CResult.noConfusion hm
      · exact CResult.noConfusion hm
      · split at hm
        · exact CResult.noConfusion hm
        · exact CResult.noConfusion hm
        · split at hm
          · exact CResult.noConfusion hm
          · split at hm
            · exact CResult.noConfusion hm
            · exact CResult.noConfusion hm
            · split at hm
              · simp only [CResult.ok.injEq, Option.some.injEq] at hm
                subst hm
                rfl
              · split at hm
                · exact CResult.noConfusion hm
                · split at hm
                  · exact CResult.noConfusion hm
                  · exact CResult.noConfusion hm
                  · split at hm
                    · exact CResult.noConfusion hm
                    · simp only [CResult.ok.injEq, Option.some.injEq] at hm
                      subst hm
                      rfl
    · simp only [map_from_tiled_layer_json, Bool.false_eq_true, if_false, ne_eq, hty,
        not_false_eq_true, if_true] at hm
      simp at hm

/-- A tile layer carrying `parallaxx = parallaxy = 1/2`. -/
def c9_layer_half : layer_def_t :=
  { name := some "l", ltype := some "tilelayer", width := some 1, height := some 1,
    parallaxx := some (1/2), parallaxy := some (1/2), properties := none, data := some [0] }

/-- A tile layer carrying `parallaxx = 1/2`, `parallaxy = 3/10`. -/
def c9_layer_mix : layer_def_t :=
  { name := some "l", ltype := some "tilelayer", width := some 1, height := some 1,
    parallaxx := some (1/2), parallaxy := some (3/10), properties := none, data := some [0] }

/-- A tile layer carrying `parallaxx = parallaxy = 0`. -/
def c9_layer_zero : layer_def_t :=
  { name := some "l", ltype := some "tilelayer", width := some 1, height := some 1,
    parallaxx := some 0, parallaxy := some 0, properties := none, data := some [0] }

/-- A tile layer carrying `parallaxx = parallaxy = 2` over all-zero data. -/
def c9_layer_two : layer_def_t :=
  { name := some "l", ltype := some "tilelayer", width := some 1, height := some 1,
    parallaxx := some 2, parallaxy := some 2, properties := none, data := some [0] }

/-- Witness for `C9_parallax_rules` at the spec's example values:
`parallaxx = parallaxy = 0.5` yields distance 0.5; `0.5` against `0.3`
is the mismatch fatal error; `0` against `0` is the zero-distance fatal
error, also at the whole-build level; and a build that succeeds with
parallax 2 carries distance 2. -/
theorem C9_parallax_rules_witness :
    parallax_distance c9_layer_half.parallaxx c9_layer_half.parallaxy
      = CResult.ok (1/2 : ℚ) ∧
    parallax_distance c9_layer_mix.parallaxx c9_layer_mix.parallaxy
      = CResult.fatal "parallax.x and parallax.y has to be the same(=map.distance)" ∧
    parallax_distance c9_layer_zero.parallaxx c9_layer_zero.parallaxy
      = CResult.fatal "invalid distance for map" ∧
    map_from_tiled_layer_json false c9_layer_zero { tile_size := 8, tilesets := [] }
      = CResult.fatal "invalid distance for map" ∧
    ({ size_x := 1, size_y := 1, tile_size := 8, distance := 2, foreground := false,
       repeat_flag := none, name := chars "l", data := [0], tileset := none } : map_t).distance
      = 2 := by
  have hz : parallax_distance c9_layer_zero.parallaxx c9_layer_zero.parallaxy
      = CResult.fatal "invalid distance for map" :=
    ((C9_parallax_rules c9_layer_zero { tile_size := 8, tilesets := [] }).2.1 0 0 rfl rfl).2.2
      ⟨rfl, rfl⟩
  refine ⟨?_, ?_, hz, ?_, ?_⟩
  · exact ((C9_parallax_rules c9_layer_half { tile_size := 8, tilesets := [] }).2.1
      (1/2) (1/2) rfl rfl).1 ⟨rfl, by norm_num⟩
  · exact ((C9_parallax_rules c9_layer_mix { tile_size := 8, tilesets := [] }).2.1
      (1/2) (3/10) rfl rfl).2.1 (by norm_num)
  · exact (C9_parallax_rules c9_layer_zero { tile_size := 8, tilesets := [] }).2.2.2.1
      "invalid distance for map" hz rfl
  · exact (C9_parallax_rules c9_layer_two { tile_size := 8, tilesets := [] }).2.2.2.2
      2 _ (by decide) (by decide)

/-! ## Claim C4: two-phase native entity load -/

/-- Whether phase 1 accepts a definition: its `type` key is present and
recognized by the lookup collaborator. -/
def spawn_ok {σ : Type} (lookup : String → Option Nat) (d : entity_def_t σ) : Bool :=
  match d.etype_name with
  | none => false
  | some tn => (lookup tn).isSome

/-- The entity phase 1 produces for an accepted definition. -/
def spawned_of {σ : Type} (lookup : String → Option Nat) (d : entity_def_t σ) : entity_t :=
  { etype := (d.etype_name.bind lookup).getD 0,
    pos_x := json_number d.x, pos_y := json_number d.y,
    name := d.settings.bind (fun s => s.name) }

/-- Spawning an accepted definition yields exactly `spawned_of`. -/
theorem spawn_native_entity_ok_of {σ : Type} (lookup : String → Option Nat)
    (d : entity_def_t σ) (h : spawn_ok lookup d = true) :
    spawn_native_entity lookup d = CResult.ok (spawned_of lookup d) := by
  cases hot : d.etype_name with
  | none => simp [spawn_ok, hot] at h
  | some tn =>
    cases hl : lookup tn with
    | none => simp [spawn_ok, hot, hl] at h
    | some ty => simp [spawn_native_entity, spawned_of, hot, hl]

/-- A successful spawn means the definition was accepted and the entity
is `spawned_of`. -/
theorem spawn_native_entity_ok_inv {σ : Type} (lookup : String → Option Nat)
    (d : entity_def_t σ) (e : entity_t)
    (h : spawn_native_entity lookup d = CResult.ok e) :
    spawn_ok lookup d = true ∧ e = spawned_of lookup d := by
  cases hot : d.etype_name with
  | none => simp [spawn_native_entity, hot] at h
  | some tn =>
    cases hl : lookup tn with
    | none => simp [spawn_native_entity, hot, hl] at h
    | some ty =>
      simp only [spawn_native_entity, hot, hl] at h
      injection h with h2
      subst h2
      simp [spawn_ok, spawned_of, hot, hl]

/-- Phase 1 never exhibits undefined behaviour (its only exits are
spawned entities and fatal type errors). -/
theorem spawn_native_entity_ne_crash {σ : Type} (lookup : String → Option Nat)
    (d : entity_def_t σ) : spawn_native_entity lookup d ≠ CResult.crash := by
  cases hot : d.etype_name with
  | none => simp [spawn_native_entity, hot]
  | some tn =>
    cases hl : lookup tn with
    | none => simp [spawn_native_entity, hot, hl]
    | some ty => simp [spawn_native_entity, hot, hl]

/-- The records phase 1 builds for a list of accepted definitions,
indexed from `k`: per definition, its index, its spawned entity and its
settings blob when present. -/
def phase1_items {σ : Type} (lookup : String → Option Nat) (defs : List (entity_def_t σ))
    (k : Nat) : List (Nat × entity_t × Option σ) :=
  (defs.enumFrom k).map (fun p => (p.1, spawned_of lookup p.2, p.2.settings.map (fun s => s.blob)))

/-- Closed form of phase 1 when every definition is accepted: one spawn
event per definition in array order, and the bookkeeping records in array
order. -/
theorem native_phase1_all_ok {σ : Type} (lookup : String → Option Nat) :
    ∀ (defs : List (entity_def_t σ)) (k : Nat),
      (∀ d ∈ defs, spawn_ok lookup d = true) →
      native_phase1 lookup defs k
        = ((defs.enumFrom k).map (fun p => load_event.spawn p.1),
            CResult.ok (phase1_items lookup defs k)) := by
  intro defs
  induction defs with
  | nil => intro k _; simp [native_phase1, phase1_items, List.enumFrom]
  | cons d rest ih =>
    intro k h
    have hd : spawn_ok lookup d = true := h d (by simp)
    have hrest : ∀ x ∈ rest, spawn_ok lookup x = true := fun x hx => h x (by simp [hx])
    simp only [native_phase1, spawn_native_entity_ok_of lookup d hd, ih (k + 1) hrest,
      phase1_items, List.enumFrom, List.map_cons]

/-- A phase 1 run that produced records accepted every definition. -/
theorem native_phase1_ok_inv {σ : Type} (lookup : String → Option Nat) :
    ∀ (defs : List (entity_def_t σ)) (k : Nat) (items : List (Nat × entity_t × Option σ)),
      (native_phase1 lookup defs k).2 = CResult.ok items →
      ∀ d ∈ defs, spawn_ok lookup d = true := by
  intro defs
  induction defs with
  | nil => intro k items _; simp
  | cons d rest ih =>
    intro k items h
    simp only [native_phase1] at h
    cases hs : spawn_native_entity lookup d with
    | fatal e => rw [hs] at h; exact CResult.noConfusion h
    | crash => rw [hs] at h; exact CResult.noConfusion h
    | ok ent =>
      rw [hs] at h
      intro x hx
      rcases List.mem_cons.mp hx with hx | hx
      · subst hx
        exact (spawn_native_entity_ok_inv lookup x ent hs).1
      · cases hr : (native_phase1 lookup rest (k + 1)).2 with
        | fatal e => rw [hr] at h; exact CResult.noConfusion h
        | crash => rw [hr] at h; exact CResult.noConfusion h
        | ok items2 => exact ih (k + 1) items2 hr x hx

/-- Phase 1 never exhibits undefined behaviour. -/
theorem native_phase1_ne_crash {σ : Type} (lookup : String → Option Nat) :
    ∀ (defs : List (entity_def_t σ)) (k : Nat),
      (native_phase1 lookup defs k).2 ≠ CResult.crash := by
  intro defs
  induction defs with
  | nil => intro k; simp [native_phase1]
  | cons d rest ih =>
    intro k
    simp only [native_phase1]
    cases hs : spawn_native_entity lookup d with
    | fatal e => simp
    | crash => exact absurd hs (spawn_native_entity_ne_crash lookup d)
    | ok ent =>
      cases hr : (native_phase1 lookup rest (k + 1)).2 with
      | fatal e => simp [hr]
      | crash => exact absurd hr (ih (k + 1))
      | ok items => simp [hr]

/-- Mapping over an indexed list while ignoring the indices is mapping
over the list. -/
theorem enumFrom_map_snd_comp {α β : Type} (f : α → β) :
    ∀ (l : List α) (k : Nat), (l.enumFrom k).map (fun p => f p.2) = l.map f := by
  intro l
  induction l with
  | nil => intro k; rfl
  | cons a rest ih => intro k; simp only [List.enumFrom, List.map_cons, ih (k + 1)]

/-- The collection of spawned entities phase 1 leaves behind — what name
references resolve against once phase 2 runs. -/
def native_env {σ : Type} (lookup : String → Option Nat) (defs : List (entity_def_t σ)) :
    Multiset entity_t :=
  ↑(defs.map (spawned_of lookup))

/-- The final state of one definition's entity after phase 2: its spawn
state with its settings applied against the given spawned collection, or
just its spawn state when it has no settings. -/
def native_final {σ : Type} (lookup : String → Option Nat)
    (app : entity_t → σ → Multiset entity_t → entity_t)
    (env : Multiset entity_t) (d : entity_def_t σ) : entity_t :=
  match d.settings with
  | some s => app (spawned_of lookup d) s.blob env
  | none => spawned_of lookup d

/-- The spawned entities recorded by phase 1 are exactly the per-definition
spawn results. -/
theorem phase1_items_map_ent {σ : Type} (lookup : String → Option Nat)
    (defs : List (entity_def_t σ)) (k : Nat) :
    (phase1_items lookup defs k).map (fun it => it.2.1) = defs.map (spawned_of lookup) := by
  rw [phase1_items, List.map_map]
  exact enumFrom_map_snd_comp (spawned_of lookup) defs k

/-- Phase 2 over phase 1's records computes each definition's final
entity. -/
theorem phase1_items_map_final {σ : Type} (lookup : String → Option Nat)
    (app : entity_t → σ → Multiset entity_t → entity_t) (env : Multiset entity_t) :
    ∀ (defs : List (entity_def_t σ)) (k : Nat),
      (phase1_items lookup defs k).map (fun it =>
          match it.2.2 with
          | some blob => app it.2.1 blob env
          | none => it.2.1)
        = defs.map (native_final lookup app env) := by
  intro defs
  induction defs with
  | nil => intro k; rfl
  | cons d rest ih =>
    intro k
    simp only [phase1_items, List.enumFrom, List.map_cons] at ih ⊢
    rw [ih (k + 1)]
    cases hs : d.settings with
    | none => simp [native_final, hs]
    | some s => simp [native_final, hs]

/-- Characterization of the native entity load: it succeeds exactly when
every definition's type resolves, and then the final entity list is, per
definition in array order, its spawn state with its settings applied
against the full spawned collection. -/
theorem engine_load_level_entities_ok_iff {σ : Type} (lookup : String → Option Nat)
    (app : entity_t → σ → Multiset entity_t → entity_t)
    (defs : List (entity_def_t σ)) (l : List entity_t) :
    (engine_load_level_entities lookup app defs).2 = CResult.ok l ↔
      ((∀ d ∈ defs, spawn_ok lookup d = true) ∧
        l = defs.map (native_final lookup app (native_env lookup defs))) := by
  constructor
  · intro h
    have hall : ∀ d ∈ defs, spawn_ok lookup d = true := by
      have h2 := h
      simp only [engine_load_level_entities] at h2
      cases hr : (native_phase1 lookup defs 0).2 with
      | fatal e => rw [hr] at h2; exact CResult.noConfusion h2
      | crash => rw [hr] at h2; exact CResult.noConfusion h2
      | ok items => exact native_phase1_ok_inv lookup defs 0 items hr
    refine ⟨hall, ?_⟩
    have hfull := native_phase1_all_ok lookup defs 0 hall
    simp only [engine_load_level_entities, hfull] at h
    injection h with h2
    rw [← h2, phase1_items_map_ent lookup defs 0]
    exact phase1_items_map_final lookup app (↑(defs.map (spawned_of lookup))) defs 0
  · rintro ⟨hall, rfl⟩
    have hfull := native_phase1_all_ok lookup defs 0 hall
    simp only [engine_load_level_entities, hfull]
    rw [phase1_items_map_ent lookup defs 0]
    exact congrArg CResult.ok
      (phase1_items_map_final lookup app (↑(defs.map (spawned_of lookup))) defs 0)

/-- The native entity load never exhibits undefined behaviour. -/
theorem engine_load_level_entities_ne_crash {σ : Type} (lookup : String → Option Nat)
    (app : entity_t → σ → Multiset entity_t → entity_t) (defs : List (entity_def_t σ)) :
    (engine_load_level_entities lookup app defs).2 ≠ CResult.crash := by
  simp only [engine_load_level_entities]
  cases hr : (native_phase1 lookup defs 0).2 with
  | fatal e => simp
  | crash => exact absurd hr (native_phase1_ne_crash lookup defs 0)
  | ok items => simp

/-- Filtering a mapped list is mapping the filtered list. -/
theorem filter_map_comm {α β : Type} (f : α → β) (p : β → Bool) :
    ∀ l : List α, (l.map f).filter p = (l.filter (fun a => p (f a))).map f := by
  intro l
  induction l with
  | nil => rfl
  | cons a rest ih =>
    simp only [List.map_cons, List.filter_cons]
    cases hp : p (f a) with
    | true => simp [hp, ih]
    | false => simp [hp, ih]

/-- The event trace of a fully spawning native entity load: first one
`spawn` event per definition, in array order, then one `apply_settings`
event per settings-bearing definition, in array order — every settings
application strictly after every spawn. -/
theorem engine_load_level_entities_trace {σ : Type} (lookup : String → Option Nat)
    (app : entity_t → σ → Multiset entity_t → entity_t) (defs : List (entity_def_t σ))
    (hall : ∀ d ∈ defs, spawn_ok lookup d = true) :
    (engine_load_level_entities lookup app defs).1
      = (defs.enum.map fun p => load_event.spawn p.1)
        ++ ((defs.enum.filter fun p => p.2.settings.isSome).map
            fun p => load_event.apply_settings p.1) := by
  have hfull := native_phase1_all_ok lookup defs 0 hall
  simp only [engine_load_level_entities, hfull]
  congr 1
  rw [phase1_items, filter_map_comm, List.map_map]
  have hpred : (fun a : Nat × entity_def_t σ =>
        (Option.map (fun s => s.blob) a.2.settings).isSome)
      = fun p : Nat × entity_def_t σ => p.2.settings.isSome := by
    funext p
    cases hs : p.2.settings with
    | none => simp [hs]
    | some s => simp [hs]
  rw [hpred]
  rfl

/-- Claim C4.  In the native-format load, once phase 1 has spawned every
entity of the `entities[]` array the trace shows all `apply_settings`
calls strictly after all `spawn` calls and in array order; and loading
any permutation of the same definitions also succeeds and produces the
same collection (multiset) of final entities — settings application does
not depend on listing order. -/
theorem C4_two_phase_settings {σ : Type} (lookup : String → Option Nat)
    (app : entity_t → σ → Multiset entity_t → entity_t)
    (defs defs2 : List (entity_def_t σ)) (l : List entity_t)
    (hok : (engine_load_level_entities lookup app defs).2 = CResult.ok l)
    (hperm : defs.Perm defs2) :
    ((engine_load_level_entities lookup app defs).1
      = (defs.enum.map fun p => load_event.spawn p.1)
        ++ ((defs.enum.filter fun p => p.2.settings.isSome).map
            fun p => load_event.apply_settings p.1)) ∧
    (∃ l2, (engine_load_level_entities lookup app defs2).2 = CResult.ok l2 ∧
      (↑l2 : Multiset entity_t) = (↑l : Multiset entity_t)) := by
  obtain ⟨hall, hl⟩ := (engine_load_level_entities_ok_iff lookup app defs l).mp hok
  refine ⟨engine_load_level_entities_trace lookup app defs hall, ?_⟩
  have hall2 : ∀ d ∈ defs2, spawn_ok lookup d = true := fun d hd =>
    hall d (hperm.mem_iff.mpr hd)
  have henv : native_env lookup defs2 = native_env lookup defs := by
    simp only [native_env]
    exact Multiset.coe_eq_coe.mpr ((hperm.map (spawned_of lookup))).symm
  refine ⟨defs2.map (native_final lookup app (native_env lookup defs2)),
    (engine_load_level_entities_ok_iff lookup app defs2 _).mpr ⟨hall2, rfl⟩, ?_⟩
  rw [henv, hl]
  exact Multiset.coe_eq_coe.mpr
    ((hperm.map (native_final lookup app (native_env lookup defs))).symm)

/-- A concrete settings-application collaborator: stamps the entity's
type with the blob plus the number of spawned entities it can see. -/
def c4_app : entity_t → Nat → Multiset entity_t → entity_t :=
  fun e blob env => { e with etype := blob + Multiset.card env }

/-- Entity A: references carry through its settings (blob 0, name A). -/
def c4_defA : entity_def_t Nat :=
  { etype_name := some "Player", x := some 1, y := some 2,
    settings := some { name := some "A", blob := 0 } }

/-- Entity B: no settings. -/
def c4_defB : entity_def_t Nat :=
  { etype_name := some "Player", x := some 3, y := some 4, settings := none }

/-- Witness for `C4_two_phase_settings` at a two-entity load: the trace
is spawn 0, spawn 1, then apply-settings 0, and the reversed listing
loads to the same multiset of final entities. -/
theorem C4_two_phase_settings_witness :
    ((engine_load_level_entities c7_lookup c4_app [c4_defA, c4_defB]).1
      = ([c4_defA, c4_defB].enum.map fun p => load_event.spawn p.1)
        ++ (([c4_defA, c4_defB].enum.filter fun p => p.2.settings.isSome).map
            fun p => load_event.apply_settings p.1)) ∧
    (∃ l2, (engine_load_level_entities c7_lookup c4_app [c4_defB, c4_defA]).2
        = CResult.ok l2 ∧
      (↑l2 : Multiset entity_t)
        = (↑[({ etype := 2, pos_x := 1, pos_y := 2, name := some "A" } : entity_t),
            { etype := 1, pos_x := 3, pos_y := 4, name := none }] : Multiset entity_t)) :=
  C4_two_phase_settings c7_lookup c4_app [c4_defA, c4_defB] [c4_defB, c4_defA] _
    (by decide) (by decide)

/-! ## Claim C10: the entities key is required -/

/-- The maps loop never exhibits undefined behaviour: every entry access
is guarded (`maps && i < maps->len`), so its only exits are a new state
or the background-cap fatal error. -/
theorem load_native_maps_ne_crash (max_bg : Nat) :
    ∀ (maps : List native_map_def_t) (acc : CResult level_state_t),
      acc ≠ CResult.crash →
      maps.foldl (load_native_maps_step max_bg) acc ≠ CResult.crash := by
  intro maps
  induction maps with
  | nil => intro acc h; simpa using h
  | cons md rest ih =>
    intro acc h
    simp only [List.foldl_cons]
    refine ih (load_native_maps_step max_bg acc md) ?_
    cases acc with
    | ok st =>
      simp only [load_native_maps_step]
      by_cases hc : md.name = some "collision"
      · simp [hc]
      · by_cases hcap : max_bg ≤ st.background_maps.length
        · simp [hc, hcap]
        · simp [hc, hcap]
    | fatal e => simp [load_native_maps_step]
    | crash => exact absurd rfl h

/-- Claim C10.  `engine_load_level` sizes its settings bookkeeping from
`entities->len` before any null check on the `entities` value (engine.c
line 432): whenever the maps phase completes, a document with no
`entities` key is a null dereference, not a handled case; a document with
the key present never reaches undefined behaviour (its failures are all
fatal errors); and an absent `maps` key is tolerated — with `maps` absent
and `entities` present-but-empty the load returns the freshly reset
state.  Totality of the load therefore requires the `entities` key. -/
theorem C10_entities_key_required {σ : Type} (lookup : String → Option Nat)
    (app : entity_t → σ → Multiset entity_t → entity_t) (max_bg : Nat)
    (doc : level_doc_t σ) :
    (∀ st, load_native_maps max_bg (doc.maps.getD []) = CResult.ok st →
      doc.entities = none →
      engine_load_level lookup app max_bg (some doc) = CResult.crash) ∧
    (doc.entities.isSome →
      engine_load_level lookup app max_bg (some doc) ≠ CResult.crash) ∧
    (doc.maps = none → doc.entities = some [] →
      engine_load_level lookup app max_bg (some doc)
        = CResult.ok ({ collision_map := none, background_maps := [] }, [])) := by
  refine ⟨?_, ?_, ?_⟩
  · intro st hst hent
    simp [engine_load_level, hst, hent]
  · intro hent
    obtain ⟨defs, hdefs⟩ := Option.isSome_iff_exists.mp hent
    simp only [engine_load_level, hdefs]
    cases hmaps : load_native_maps max_bg (doc.maps.getD []) with
    | fatal e => simp
    | crash => exact absurd hmaps (load_native_maps_ne_crash max_bg _ _ (by simp))
    | ok st =>
      cases hents : (engine_load_level_entities lookup app defs).2 with
      | fatal e => simp [hents]
      | crash => exact absurd hents (engine_load_level_entities_ne_crash lookup app defs)
      | ok ents => simp [hents]
  · intro hmaps hent
    simp [engine_load_level, hmaps, hent, load_native_maps, engine_load_level_entities,
      native_phase1]

/-- A native-format document with neither a `maps` nor an `entities`
key. -/
def c10_doc_no_entities : level_doc_t Nat := { maps := none, entities := none }

/-- A native-format document with no `maps` key and an empty `entities`
array. -/
def c10_doc_empty : level_doc_t Nat := { maps := none, entities := some [] }

/-- Witness for `C10_entities_key_required`: with `entities` absent the
load is the null dereference; with `maps` absent but `entities` present
the load succeeds with the reset state. -/
theorem C10_entities_key_required_witness :
    engine_load_level c7_lookup c4_app 8 (some c10_doc_no_entities) = CResult.crash ∧
    engine_load_level c7_lookup c4_app 8 (some c10_doc_empty)
      = CResult.ok ({ collision_map := none, background_maps := [] }, []) := by
  refine ⟨?_, ?_⟩
  · exact (C10_entities_key_required c7_lookup c4_app 8 c10_doc_no_entities).1
      { collision_map := none, background_maps := [] } (by decide) rfl
  · exact (C10_entities_key_required c7_lookup c4_app 8 c10_doc_empty).2.2 rfl rfl
